import Mathlib

/-!
Verification development for the langchain-memory storage subsystem.

The definitions below are a shallow embedding of the TypeScript sources:

* `src/types` data shapes (messages, sessions, query options, results, stats);
* `LocalStorage` (file-backed backend, src/src/storage/LocalStorage.ts);
* `S3Storage` (object-storage backend, whose method bodies are verbatim
  duplicates of the file backend, so they are embedded as aliases);
* `DynamoDBStorage` (wide-column backend, same source file, second class);
* `MemoryManager` (src/src/interfaces/MemoryInterface.ts bundle).

Modelling conventions, all stated once here:

* JavaScript `Date` values are modelled as natural numbers (milliseconds
  since the epoch); `new Date()` at a call site becomes an explicit `now`
  argument threaded into the operation.
* `uuidv4()` becomes an explicit `freshId` argument; the JS falsiness test
  `!message.id` on a string is the test `id = ""` (absent ids are empty).
* The open-ended `metadata` map is opaque to every operation (the code only
  ever passes it through, JSON-stringifying it in the wide-column backend),
  so it is modelled as `Option String`.
* A method that can `throw` returns `Except String A` paired with the state
  after the call; a throw before any mutation returns the input state.
* JS truthiness of an optional string option (`if (options.sessionId)`)
  is false for both an absent option and the empty string; truthiness of a
  `Date` or of the role union type is plain presence.
* `Array.prototype.sort` with a numeric comparator is modelled with
  `List.insertionSort` on the corresponding relation.
* The wide-column table is a key-value store: a list of items in which
  `Put` replaces any item with the same (partition key, sort key) pair and
  appends, `Get` is a key lookup, `Delete` removes the keyed item, and
  query/scan are filters. The string-template keys `MESSAGE#id` and
  `SESSION#id` are embedded as the two constructors of an inductive key
  type, which preserves exactly their equality and prefix structure.
-/

set_option maxHeartbeats 1000000

inductive Role where
  | user
  | assistant
  | system
  deriving DecidableEq, Repr

structure ConversationMessage where
  id : String
  sessionId : String
  role : Role
  content : String
  timestamp : Nat
  metadata : Option String := none
  deriving DecidableEq, Repr

structure ConversationSession where
  id : String
  title : Option String := none
  createdAt : Nat
  updatedAt : Nat
  messageCount : Nat
  metadata : Option String := none
  deriving DecidableEq, Repr

/-- `Partial<ConversationSession>`: every field optionally present.  A `some`
field overrides the base record when spread over it. -/
structure SessionUpdates where
  id : Option String := none
  title : Option (Option String) := none
  createdAt : Option Nat := none
  updatedAt : Option Nat := none
  messageCount : Option Nat := none
  metadata : Option (Option String) := none
  deriving DecidableEq, Repr

/-- The JS object spread `{ ...s, ...u }`. -/
def applyUpdates (s : ConversationSession) (u : SessionUpdates) : ConversationSession :=
  { id := u.id.getD s.id
    title := u.title.getD s.title
    createdAt := u.createdAt.getD s.createdAt
    updatedAt := u.updatedAt.getD s.updatedAt
    messageCount := u.messageCount.getD s.messageCount
    metadata := u.metadata.getD s.metadata }

structure MemoryQueryOptions where
  sessionId : Option String := none
  role : Option Role := none
  startDate : Option Nat := none
  endDate : Option Nat := none
  limit : Option Nat := none
  offset : Option Nat := none
  deriving DecidableEq, Repr

structure MemorySearchResult where
  messages : List ConversationMessage
  total : Nat
  hasMore : Bool
  deriving DecidableEq, Repr

structure MemoryStats where
  totalSessions : Nat
  totalMessages : Nat
  oldestMessage : Option Nat
  newestMessage : Option Nat
  averageMessagesPerSession : Rat
  deriving DecidableEq, Repr

/-- Replace the first element satisfying `p` (JS `findIndex` + indexed
assignment). -/
def updateFirst (p : α → Bool) (f : α → α) : List α → List α
  | [] => []
  | x :: xs => if p x then f x :: xs else x :: updateFirst p f xs

/-- Find and remove the first element whose `id` equals `mid`
(JS `findIndex` + `splice(idx, 1)`, also returning the removed element). -/
def removeFirstById (mid : String) : List ConversationMessage →
    Option (ConversationMessage × List ConversationMessage)
  | [] => none
  | x :: xs =>
    if x.id = mid then some (x, xs)
    else (removeFirstById mid xs).map (fun r => (r.1, x :: r.2))

/-- Ascending timestamp order used by `getMessages`. -/
def tsLe (a b : ConversationMessage) : Prop := a.timestamp ≤ b.timestamp

instance : DecidableRel tsLe := fun a b => Nat.decLe a.timestamp b.timestamp

instance : IsTotal ConversationMessage tsLe :=
  ⟨fun a b => Nat.le_total a.timestamp b.timestamp⟩

instance : IsTrans ConversationMessage tsLe :=
  ⟨fun _ _ _ h h2 => Nat.le_trans h h2⟩

/-- Descending `updatedAt` order used by `getSessions`. -/
def updatedDesc (a b : ConversationSession) : Prop := b.updatedAt ≤ a.updatedAt

instance : DecidableRel updatedDesc := fun a b => Nat.decLe b.updatedAt a.updatedAt

/-- JS truthiness of `options.sessionId`. -/
def sessionIdTruthy (o : MemoryQueryOptions) : Bool :=
  match o.sessionId with
  | some s => !(decide (s = ""))
  | none => false

def filterBySession (o : MemoryQueryOptions) (msgs : List ConversationMessage) :
    List ConversationMessage :=
  if sessionIdTruthy o then
    msgs.filter (fun m => decide (m.sessionId = o.sessionId.getD ""))
  else msgs

def filterByRole (o : MemoryQueryOptions) (msgs : List ConversationMessage) :
    List ConversationMessage :=
  match o.role with
  | some r => msgs.filter (fun m => decide (m.role = r))
  | none => msgs

def filterByStartDate (o : MemoryQueryOptions) (msgs : List ConversationMessage) :
    List ConversationMessage :=
  match o.startDate with
  | some d => msgs.filter (fun m => decide (d ≤ m.timestamp))
  | none => msgs

def filterByEndDate (o : MemoryQueryOptions) (msgs : List ConversationMessage) :
    List ConversationMessage :=
  match o.endDate with
  | some d => msgs.filter (fun m => decide (m.timestamp ≤ d))
  | none => msgs

def sortByTimestamp (msgs : List ConversationMessage) : List ConversationMessage :=
  List.insertionSort tsLe msgs

/-- Offset/limit pagination over the filtered, sorted list, including the JS
falsy defaulting `options.offset || 0` and `options.limit || total`. -/
def paginate (o : MemoryQueryOptions) (sorted : List ConversationMessage) :
    MemorySearchResult :=
  let total := sorted.length
  let offset := o.offset.getD 0
  let limit :=
    match o.limit with
    | some l => if l = 0 then total else l
    | none => total
  { messages := (sorted.drop offset).take limit
    total := total
    hasMore := decide (offset + limit < total) }

/-- The filter-sort-paginate pipeline shared by the file and object backends
(and, after the initial query, by the wide-column backend). -/
def getMessagesPure (o : MemoryQueryOptions) (msgs : List ConversationMessage) :
    MemorySearchResult :=
  paginate o
    (sortByTimestamp (filterByEndDate o (filterByStartDate o
      (filterByRole o (filterBySession o msgs)))))

def storageNotReady : String := "Storage not initialized"

/-- The save upsert: replace the message with the same id if one exists
(JS `findIndex` plus indexed assignment), otherwise push. -/
def upsertMessage (message : ConversationMessage) (msgs : List ConversationMessage) :
    List ConversationMessage :=
  if msgs.any (fun m => decide (m.id = message.id)) then
    updateFirst (fun m => decide (m.id = message.id)) (fun _ => message) msgs
  else msgs ++ [message]

structure LocalState where
  messages : List ConversationMessage
  sessions : List ConversationSession
  lastUpdated : Nat
  ready : Bool
  deriving DecidableEq, Repr

namespace LocalStorage

/-- `updateSessionInternal`: merge-update the first session with the given
id, or append a freshly created one (default `messageCount` is the literal
`1` from the source, overridden by `updates` when supplied). -/
def updateSessionInternal (now : Nat) (sessionId : String) (u : SessionUpdates)
    (st : LocalState) : LocalState :=
  if st.sessions.any (fun s => decide (s.id = sessionId)) then
    let merged := fun s => { applyUpdates s u with updatedAt := now }
    let newSessions := updateFirst (fun s => decide (s.id = sessionId)) merged st.sessions
    { st with sessions := newSessions }
  else
    let base : ConversationSession :=
      { id := sessionId, createdAt := now, updatedAt := now, messageCount := 1 }
    { st with sessions := st.sessions ++ [applyUpdates base u] }

def saveMessage (now : Nat) (freshId : String) (message : ConversationMessage)
    (st : LocalState) : Except String Unit × LocalState :=
  if !st.ready then (.error storageNotReady, st) else
  let message := if message.id = "" then { message with id := freshId } else message
  let msgs := upsertMessage message st.messages
  let st1 := { st with messages := msgs }
  let count := (msgs.filter (fun m => decide (m.sessionId = message.sessionId))).length
  let st2 := updateSessionInternal now message.sessionId
    { updatedAt := some now, messageCount := some count } st1
  (.ok (), { st2 with lastUpdated := now })

def saveMessages (now : Nat) (freshId : String) (messages : List ConversationMessage)
    (st : LocalState) : Except String Unit × LocalState :=
  match messages with
  | [] => (.ok (), st)
  | m :: rest =>
    match saveMessage now freshId m st with
    | (.ok _, st1) => saveMessages now freshId rest st1
    | (.error e, st1) => (.error e, st1)

def getMessages (o : MemoryQueryOptions) (st : LocalState) :
    Except String MemorySearchResult × LocalState :=
  if !st.ready then (.error storageNotReady, st) else
  (.ok (getMessagesPure o st.messages), st)

def getMessage (messageId : String) (st : LocalState) :
    Except String (Option ConversationMessage) × LocalState :=
  if !st.ready then (.error storageNotReady, st) else
  (.ok (st.messages.find? (fun m => decide (m.id = messageId))), st)

def getSessions (st : LocalState) :
    Except String (List ConversationSession) × LocalState :=
  if !st.ready then (.error storageNotReady, st) else
  (.ok (List.insertionSort updatedDesc st.sessions), st)

def getSession (sessionId : String) (st : LocalState) :
    Except String (Option ConversationSession) × LocalState :=
  if !st.ready then (.error storageNotReady, st) else
  (.ok (st.sessions.find? (fun s => decide (s.id = sessionId))), st)

def updateSession (now : Nat) (sessionId : String) (u : SessionUpdates)
    (st : LocalState) : Except String Unit × LocalState :=
  if !st.ready then (.error storageNotReady, st) else
  let st1 := updateSessionInternal now sessionId u st
  (.ok (), { st1 with lastUpdated := now })

def deleteMessage (now : Nat) (messageId : String) (st : LocalState) :
    Except String Unit × LocalState :=
  if !st.ready then (.error storageNotReady, st) else
  match removeFirstById messageId st.messages with
  | none => (.ok (), st)
  | some (m, msgs) =>
    let st1 := { st with messages := msgs }
    let count := (msgs.filter (fun x => decide (x.sessionId = m.sessionId))).length
    let st2 := updateSessionInternal now m.sessionId { messageCount := some count } st1
    (.ok (), { st2 with lastUpdated := now })

def deleteSession (now : Nat) (sessionId : String) (st : LocalState) :
    Except String Unit × LocalState :=
  if !st.ready then (.error storageNotReady, st) else
  (.ok (), { st with
      messages := st.messages.filter (fun m => !(decide (m.sessionId = sessionId)))
      sessions := st.sessions.filter (fun s => !(decide (s.id = sessionId)))
      lastUpdated := now })

def getStatsPure (st : LocalState) : MemoryStats :=
  let totalSessions := st.sessions.length
  let totalMessages := st.messages.length
  let timestamps := st.messages.map (fun m => m.timestamp)
  let avg : Rat :=
    if 0 < totalSessions then (totalMessages : Rat) / (totalSessions : Rat) else 0
  { totalSessions := totalSessions
    totalMessages := totalMessages
    oldestMessage := timestamps.min?
    newestMessage := timestamps.max?
    averageMessagesPerSession := avg }

def getStats (st : LocalState) : Except String MemoryStats × LocalState :=
  if !st.ready then (.error storageNotReady, st) else
  (.ok (getStatsPure st), st)

def clear (now : Nat) (st : LocalState) : Except String Unit × LocalState :=
  if !st.ready then (.error storageNotReady, st) else
  (.ok (), { messages := [], sessions := [], lastUpdated := now, ready := st.ready })

def isReady (st : LocalState) : Bool := st.ready

end LocalStorage

/-! The S3 (object-storage) backend methods in src/unnamed/part_006 are
verbatim duplicates of the file backend methods: the same in-memory
`StorageData`, the same filter, sort, pagination, upsert, recount and delete
logic, differing only in where the serialized blob is mirrored (an object put
instead of a file write, which the embedding abstracts away as `lastUpdated`).
They are therefore embedded as definitional aliases. -/

namespace S3Storage

def saveMessage := @LocalStorage.saveMessage

def saveMessages := @LocalStorage.saveMessages

def getMessages := @LocalStorage.getMessages

def getMessage := @LocalStorage.getMessage

def getSessions := @LocalStorage.getSessions

def getSession := @LocalStorage.getSession

def updateSession := @LocalStorage.updateSession

def deleteMessage := @LocalStorage.deleteMessage

def deleteSession := @LocalStorage.deleteSession

def getStats := @LocalStorage.getStats

def clear := @LocalStorage.clear

end S3Storage

/-- Wide-column keys: `MESSAGE#id` and `SESSION#id` string templates. -/
inductive DKey where
  | message (id : String)
  | session (id : String)
  deriving DecidableEq, Repr

/-- One wide-column row.  Fields that the source writes only for one item
type are optional; `metadata` keeps its JSON-stringified opaque form. -/
structure DynamoItem where
  PK : DKey
  SK : DKey
  itemType : String
  id : String
  sessionId : Option String := none
  role : Option Role := none
  content : Option String := none
  timestamp : Option Nat := none
  title : Option String := none
  createdAt : Option Nat := none
  updatedAt : Option Nat := none
  messageCount : Option Nat := none
  metadata : Option String := none
  deriving DecidableEq, Repr

structure DynamoState where
  table : List DynamoItem
  ready : Bool
  deriving DecidableEq, Repr

def isMessageKey : DKey → Bool
  | .message _ => true
  | .session _ => false

/-- `PutCommand`: replace any row with the same key pair, then append. -/
def putItem (it : DynamoItem) (tbl : List DynamoItem) : List DynamoItem :=
  tbl.filter (fun x => !(decide (x.PK = it.PK ∧ x.SK = it.SK))) ++ [it]

/-- `GetCommand`: exact key lookup. -/
def getItem (pk sk : DKey) (tbl : List DynamoItem) : Option DynamoItem :=
  tbl.find? (fun x => decide (x.PK = pk ∧ x.SK = sk))

/-- `DeleteCommand`: remove the row with the given key pair. -/
def deleteItem (pk sk : DKey) (tbl : List DynamoItem) : List DynamoItem :=
  tbl.filter (fun x => !(decide (x.PK = pk ∧ x.SK = sk)))

/-- Rebuild a message from a row, absent attributes defaulting. -/
def toMessage (it : DynamoItem) : ConversationMessage :=
  { id := it.id
    sessionId := it.sessionId.getD ""
    role := it.role.getD .user
    content := it.content.getD ""
    timestamp := it.timestamp.getD 0
    metadata := it.metadata }

/-- Rebuild a session from a row (`item.messageCount || 0` from the source). -/
def toSession (it : DynamoItem) : ConversationSession :=
  { id := it.id
    title := it.title
    createdAt := it.createdAt.getD 0
    updatedAt := it.updatedAt.getD 0
    messageCount := it.messageCount.getD 0
    metadata := it.metadata }

namespace DynamoDBStorage

/-- `getMessages` without the ready check: a key-conditioned query (reversed,
`ScanIndexForward: false`) when a session id is supplied, otherwise a
full scan filtered on the message key prefix; then the shared role and date
filters, sort and pagination. -/
def getMessagesPureD (o : MemoryQueryOptions) (tbl : List DynamoItem) :
    MemorySearchResult :=
  let items :=
    if sessionIdTruthy o then
      (tbl.filter (fun x =>
        decide (x.SK = DKey.session (o.sessionId.getD "")) && isMessageKey x.PK)).reverse
    else
      tbl.filter (fun x => isMessageKey x.PK)
  let msgs := items.map toMessage
  paginate o
    (sortByTimestamp (filterByEndDate o (filterByStartDate o (filterByRole o msgs))))

def getMessages (o : MemoryQueryOptions) (st : DynamoState) :
    Except String MemorySearchResult × DynamoState :=
  if !st.ready then (.error storageNotReady, st) else
  (.ok (getMessagesPureD o st.table), st)

def getMessage (messageId : String) (st : DynamoState) :
    Except String (Option ConversationMessage) × DynamoState :=
  if !st.ready then (.error storageNotReady, st) else
  (.ok ((getItem (DKey.message messageId) (DKey.message messageId) st.table).map toMessage), st)

def getSessions (st : DynamoState) :
    Except String (List ConversationSession) × DynamoState :=
  if !st.ready then (.error storageNotReady, st) else
  let sessions := (st.table.filter (fun x => !(isMessageKey x.PK))).map toSession
  (.ok (List.insertionSort updatedDesc sessions), st)

def getSession (sessionId : String) (st : DynamoState) :
    Except String (Option ConversationSession) × DynamoState :=
  if !st.ready then (.error storageNotReady, st) else
  (.ok ((getItem (DKey.session sessionId) (DKey.session sessionId) st.table).map toSession), st)

def updateSession (now : Nat) (sessionId : String) (u : SessionUpdates)
    (st : DynamoState) : Except String Unit × DynamoState :=
  if !st.ready then (.error storageNotReady, st) else
  match getItem (DKey.session sessionId) (DKey.session sessionId) st.table with
  | none => (.error ("Session " ++ sessionId ++ " not found"), st)
  | some it =>
    let s := { applyUpdates (toSession it) u with updatedAt := now }
    let item : DynamoItem :=
      { PK := DKey.session sessionId, SK := DKey.session sessionId,
        itemType := "session", id := sessionId, title := s.title,
        createdAt := some s.createdAt, updatedAt := some s.updatedAt,
        messageCount := some s.messageCount, metadata := s.metadata }
    (.ok (), { st with table := putItem item st.table })

/-- `updateSessionInternal`: recount via a query, then delegate to
`updateSession` (the locally built default session object in the source is
never persisted, so a still-absent session record makes this fail). -/
def updateSessionInternal (now : Nat) (sessionId : String) (st : DynamoState) :
    Except String Unit × DynamoState :=
  let res := getMessagesPureD { sessionId := some sessionId } st.table
  updateSession now sessionId
    { messageCount := some res.total, updatedAt := some now } st

def saveMessage (now : Nat) (freshId : String) (message : ConversationMessage)
    (st : DynamoState) : Except String Unit × DynamoState :=
  if !st.ready then (.error storageNotReady, st) else
  let message := if message.id = "" then { message with id := freshId } else message
  let item : DynamoItem :=
    { PK := DKey.message message.id, SK := DKey.session message.sessionId,
      itemType := "message", id := message.id, sessionId := some message.sessionId,
      role := some message.role, content := some message.content,
      timestamp := some message.timestamp, metadata := message.metadata,
      createdAt := some now }
  updateSessionInternal now message.sessionId { st with table := putItem item st.table }

def saveMessages (now : Nat) (freshId : String) (messages : List ConversationMessage)
    (st : DynamoState) : Except String Unit × DynamoState :=
  match messages with
  | [] => (.ok (), st)
  | m :: rest =>
    match saveMessage now freshId m st with
    | (.ok _, st1) => saveMessages now freshId rest st1
    | (.error e, st1) => (.error e, st1)

def deleteMessage (now : Nat) (messageId : String) (st : DynamoState) :
    Except String Unit × DynamoState :=
  if !st.ready then (.error storageNotReady, st) else
  match (getItem (DKey.message messageId) (DKey.message messageId) st.table).map toMessage with
  | none => (.ok (), st)
  | some m =>
    let tbl := deleteItem (DKey.message messageId) (DKey.session m.sessionId) st.table
    updateSessionInternal now m.sessionId { st with table := tbl }

def deleteSession (sessionId : String) (st : DynamoState) :
    Except String Unit × DynamoState :=
  if !st.ready then (.error storageNotReady, st) else
  let res := getMessagesPureD { sessionId := some sessionId } st.table
  let tbl := res.messages.foldl
    (fun t m => deleteItem (DKey.message m.id) (DKey.session sessionId) t) st.table
  let tbl := deleteItem (DKey.session sessionId) (DKey.session sessionId) tbl
  (.ok (), { st with table := tbl })

def getStats (st : DynamoState) : Except String MemoryStats × DynamoState :=
  if !st.ready then (.error storageNotReady, st) else
  let sessions := (st.table.filter (fun x => !(isMessageKey x.PK))).map toSession
  let sessions := List.insertionSort updatedDesc sessions
  let messages := getMessagesPureD {} st.table
  let timestamps := messages.messages.map (fun m => m.timestamp)
  let avg : Rat :=
    if 0 < sessions.length then (messages.total : Rat) / (sessions.length : Rat) else 0
  (.ok { totalSessions := sessions.length
         totalMessages := messages.total
         oldestMessage := timestamps.min?
         newestMessage := timestamps.max?
         averageMessagesPerSession := avg }, st)

def clear (st : DynamoState) : Except String Unit × DynamoState :=
  if !st.ready then (.error storageNotReady, st) else
  (.ok (), { st with table := [] })

def isReady (st : DynamoState) : Bool := st.ready

end DynamoDBStorage

/-! Memory Manager (src/src/interfaces/MemoryInterface.ts bundle), embedded
over the file backend, which is the backend its claims exercise. -/

structure ManagerState where
  storage : LocalState
  currentSessionId : Option String := none
  ready : Bool
  deriving DecidableEq, Repr

def noActiveSession : String := "No active session. Call startSession() first."

namespace MemoryManager

def saveUserMessage (now : Nat) (freshId : String) (content : String)
    (metadata : Option String) (mm : ManagerState) : Except String String × ManagerState :=
  match mm.currentSessionId with
  | none => (.error noActiveSession, mm)
  | some sid =>
    let message : ConversationMessage :=
      { id := freshId, sessionId := sid, role := .user, content := content,
        timestamp := now, metadata := metadata }
    match LocalStorage.saveMessage now freshId message mm.storage with
    | (.ok _, st) => (.ok message.id, { mm with storage := st })
    | (.error e, st) => (.error e, { mm with storage := st })

def saveSystemMessage (now : Nat) (freshId : String) (content : String)
    (metadata : Option String) (mm : ManagerState) : Except String String × ManagerState :=
  match mm.currentSessionId with
  | none => (.error noActiveSession, mm)
  | some sid =>
    let message : ConversationMessage :=
      { id := freshId, sessionId := sid, role := .system, content := content,
        timestamp := now, metadata := metadata }
    match LocalStorage.saveMessage now freshId message mm.storage with
    | (.ok _, st) => (.ok message.id, { mm with storage := st })
    | (.error e, st) => (.error e, { mm with storage := st })

end MemoryManager

/-! Spec-side predicates, written from the specification text (not from the
source), for comparison with the embedded code. -/

/-- Spec wording for the query filters: the conjunction (AND) of every
supplied filter, with inclusive date bounds. -/
def claimMatches (o : MemoryQueryOptions) (m : ConversationMessage) : Bool :=
  (match o.sessionId with | some s => decide (m.sessionId = s) | none => true) &&
  (match o.role with | some r => decide (m.role = r) | none => true) &&
  (match o.startDate with | some d => decide (d ≤ m.timestamp) | none => true) &&
  (match o.endDate with | some d => decide (m.timestamp ≤ d) | none => true)

/-- Spec invariant: every session record counts exactly the stored messages
assigned to it. -/
def MessageCountInv (st : LocalState) : Prop :=
  ∀ s ∈ st.sessions,
    s.messageCount = (st.messages.filter (fun m => decide (m.sessionId = s.id))).length

instance (st : LocalState) : Decidable (MessageCountInv st) := by
  unfold MessageCountInv; infer_instance

/-- Well-formedness of a wide-column row, as established by the writers
`saveMessage` and `updateSession`: a message row is keyed by its own id and
its owning session, a session row is keyed by its own id on both key
positions. -/
def WFItem (it : DynamoItem) : Prop :=
  (it.itemType = "message" ∧ it.PK = DKey.message it.id ∧
    it.SK = DKey.session (it.sessionId.getD "") ∧ it.sessionId ≠ none) ∨
  (it.itemType = "session" ∧ it.PK = DKey.session it.id ∧ it.SK = DKey.session it.id)

instance (it : DynamoItem) : Decidable (WFItem it) := by
  unfold WFItem; infer_instance

def DynamoWF (tbl : List DynamoItem) : Prop := ∀ it ∈ tbl, WFItem it

instance (tbl : List DynamoItem) : Decidable (DynamoWF tbl) := by
  unfold DynamoWF; infer_instance

/-! Concrete fixtures used by witnesses and counterexamples. -/

def msgA : ConversationMessage :=
  { id := "m1", sessionId := "a", role := .user, content := "hi", timestamp := 5 }

def msgB : ConversationMessage :=
  { id := "m2", sessionId := "a", role := .assistant, content := "hello", timestamp := 3 }

def msgC : ConversationMessage :=
  { id := "m3", sessionId := "b", role := .user, content := "yo", timestamp := 4 }

def sessA : ConversationSession :=
  { id := "a", createdAt := 0, updatedAt := 1, messageCount := 2 }

def sessB : ConversationSession :=
  { id := "b", createdAt := 0, updatedAt := 2, messageCount := 1 }

/-- An uninitialized empty file-backed store. -/
def stUninit : LocalState :=
  { messages := [], sessions := [], lastUpdated := 0, ready := false }

/-- An initialized empty file-backed store. -/
def stEmpty : LocalState :=
  { messages := [], sessions := [], lastUpdated := 0, ready := true }

/-- An initialized store holding one message (and no session record). -/
def stOne : LocalState :=
  { messages := [msgA], sessions := [], lastUpdated := 0, ready := true }

/-- An initialized store holding three messages over two counted sessions. -/
def stFull : LocalState :=
  { messages := [msgA, msgB, msgC], sessions := [sessA, sessB], lastUpdated := 0, ready := true }

/-- A wide-column session row for session `s`. -/
def rowSessS : DynamoItem :=
  { PK := .session "s", SK := .session "s", itemType := "session", id := "s",
    createdAt := some 0, updatedAt := some 0, messageCount := some 0 }

/-- A wide-column message row in session `s`. -/
def rowMsgS : DynamoItem :=
  { PK := .message "m1", SK := .session "s", itemType := "message", id := "m1",
    sessionId := some "s", role := some .user, content := some "hi",
    timestamp := some 5, createdAt := some 1 }

/-- A fresh message for session `a`, used to exercise the save path. -/
def msgNew : ConversationMessage :=
  { id := "m9", sessionId := "a", role := .user, content := "again", timestamp := 9 }

/-- An uninitialized wide-column store. -/
def dstUninit : DynamoState := { table := [], ready := false }

/-- An initialized empty wide-column store. -/
def dstEmpty : DynamoState := { table := [], ready := true }

/-- An initialized wide-column store holding one session row. -/
def dstSess : DynamoState := { table := [rowSessS], ready := true }

/-- An initialized wide-column store holding one session row and one
message row. -/
def dstFull : DynamoState := { table := [rowSessS, rowMsgS], ready := true }

/-- The message whose save C1 exercises on the wide-column backend. -/
def msgS : ConversationMessage :=
  { id := "m1", sessionId := "s", role := .user, content := "hi", timestamp := 5 }

/-- A manager with an active session over an initialized empty store. -/
def mmActive : ManagerState :=
  { storage := stEmpty, currentSessionId := some "s", ready := true }

/-- A manager with no active session. -/
def mmIdle : ManagerState :=
  { storage := stEmpty, currentSessionId := none, ready := true }

/-! Helper lemmas about the embedded operations. -/

theorem updateSessionInternal_messages (now : Nat) (sid : String) (u : SessionUpdates)
    (st : LocalState) :
    (LocalStorage.updateSessionInternal now sid u st).messages = st.messages := by
  unfold LocalStorage.updateSessionInternal
  split <;> rfl

theorem updateSessionInternal_ready (now : Nat) (sid : String) (u : SessionUpdates)
    (st : LocalState) :
    (LocalStorage.updateSessionInternal now sid u st).ready = st.ready := by
  unfold LocalStorage.updateSessionInternal
  split <;> rfl

/-- Every element of `updateFirst p f l` satisfies `P` when unchanged
elements with other ids do and the (unique, by `Nodup`) matching element
does after the update. -/
theorem forall_mem_updateFirst {l : List ConversationSession} {target : String}
    {f : ConversationSession → ConversationSession} {P : ConversationSession → Prop}
    (hnd : (l.map (fun s => s.id)).Nodup)
    (hkeep : ∀ s ∈ l, s.id ≠ target → P s)
    (hupd : ∀ s ∈ l, s.id = target → P (f s)) :
    ∀ s ∈ updateFirst (fun s => decide (s.id = target)) f l, P s := by
  induction l with
  | nil => intro s hs; simp [updateFirst] at hs
  | cons a tl ih =>
    have hnd2 : (tl.map (fun s => s.id)).Nodup := (List.nodup_cons.mp hnd).2
    have hnotmem : a.id ∉ tl.map (fun s => s.id) := (List.nodup_cons.mp hnd).1
    intro s hs
    by_cases ha : a.id = target
    · rw [updateFirst, if_pos (by simpa using ha)] at hs
      rcases List.mem_cons.mp hs with h | h
      · rw [h]; exact hupd a (List.mem_cons_self a tl) ha
      · refine hkeep s (List.mem_cons_of_mem _ h) ?_
        intro hst
        exact hnotmem (by rw [ha, ← hst]; exact List.mem_map_of_mem _ h)
    · rw [updateFirst, if_neg (by simpa using ha)] at hs
      rcases List.mem_cons.mp hs with h | h
      · rw [h]; exact hkeep a (List.mem_cons_self a tl) ha
      · exact ih hnd2
          (fun x hx hne => hkeep x (List.mem_cons_of_mem _ hx) hne)
          (fun x hx he => hupd x (List.mem_cons_of_mem _ hx) he) s h

/-- Replacing one element by another that passes the same filter keeps the
filtered length. -/
theorem length_filter_updateFirst {l : List ConversationMessage}
    {p q : ConversationMessage → Bool} {f : ConversationMessage → ConversationMessage}
    (h : ∀ x ∈ l, q x = true → p (f x) = p x) :
    ((updateFirst q f l).filter p).length = (l.filter p).length := by
  induction l with
  | nil => rfl
  | cons x xs ih =>
    by_cases hq : q x = true
    · rw [updateFirst, if_pos hq]
      have hp := h x (List.mem_cons_self _ _) hq
      rw [List.filter_cons, List.filter_cons, hp]
      cases hpx : p x <;> simp [hpx]
    · rw [updateFirst, if_neg hq]
      rw [List.filter_cons, List.filter_cons]
      have ih2 := ih (fun y hy hqy => h y (List.mem_cons_of_mem _ hy) hqy)
      cases hpx : p x <;> simp [hpx, ih2]

theorem find?_updateFirst_self {p : ConversationMessage → Bool} {a : ConversationMessage}
    {l : List ConversationMessage} (hl : l.any p = true) (ha : p a = true) :
    (updateFirst p (fun _ => a) l).find? p = some a := by
  induction l with
  | nil => simp at hl
  | cons x xs ih =>
    by_cases hx : p x = true
    · rw [updateFirst, if_pos hx, List.find?_cons_of_pos _ ha]
    · rw [updateFirst, if_neg hx, List.find?_cons_of_neg _ (by simp [hx])]
      exact ih (by simpa [hx] using hl)

theorem find?_append_singleton {p : ConversationMessage → Bool} {a : ConversationMessage}
    {l : List ConversationMessage} (hl : ¬ l.any p = true) (ha : p a = true) :
    (l ++ [a]).find? p = some a := by
  induction l with
  | nil => simpa using ha
  | cons x xs ih =>
    have hx : ¬ p x = true := fun h => hl (by simp [h])
    rw [List.cons_append, List.find?_cons_of_neg _ hx]
    exact ih (fun h => hl (by simp [List.any_cons, h]))

/-- After the upsert, looking the saved message up by its id finds it. -/
theorem find?_upsertMessage (message : ConversationMessage)
    (l : List ConversationMessage) :
    (upsertMessage message l).find? (fun m => decide (m.id = message.id)) = some message := by
  unfold upsertMessage
  by_cases h : l.any (fun m => decide (m.id = message.id)) = true
  · rw [if_pos h]; exact find?_updateFirst_self h (by simp)
  · rw [if_neg h]; exact find?_append_singleton h (by simp)

/-- The upsert leaves the message count of every other session unchanged,
provided the saved id is not reused by a message of a different session. -/
theorem length_filter_upsert_ne {message : ConversationMessage}
    {l : List ConversationMessage} {sid : String}
    (hcoh : ∀ m ∈ l, m.id = message.id → m.sessionId = message.sessionId)
    (hne : ¬ message.sessionId = sid) :
    ((upsertMessage message l).filter (fun m => decide (m.sessionId = sid))).length =
      (l.filter (fun m => decide (m.sessionId = sid))).length := by
  unfold upsertMessage
  by_cases h : l.any (fun m => decide (m.id = message.id)) = true
  · rw [if_pos h]
    apply length_filter_updateFirst
    intro x hx hq
    rw [hcoh x hx (of_decide_eq_true hq)]
  · rw [if_neg h, List.filter_append]
    simp [hne]

/-- `removeFirstById` splits the list around the first message with the
given id. -/
theorem removeFirstById_decomp {mid : String} {l rest : List ConversationMessage}
    {m : ConversationMessage}
    (h : removeFirstById mid l = some (m, rest)) :
    ∃ l₁ l₂, l = l₁ ++ m :: l₂ ∧ rest = l₁ ++ l₂ ∧ m.id = mid ∧
      ∀ b ∈ l₁, b.id ≠ mid := by
  induction l generalizing rest with
  | nil => simp [removeFirstById] at h
  | cons x xs ih =>
    by_cases hx : x.id = mid
    · rw [removeFirstById, if_pos hx] at h
      obtain ⟨h1, h2⟩ := Prod.mk.injEq .. ▸ (Option.some.injEq .. ▸ h)
      exact ⟨[], xs, by simp [h1], by simp [h2], h1 ▸ hx, by simp⟩
    · rw [removeFirstById, if_neg hx] at h
      rcases ho : removeFirstById mid xs with _ | r
      · rw [ho] at h; exact absurd h (by simp)
      · rw [ho] at h
        have hpair : (r.1, x :: r.2) = (m, rest) := by simpa using h
        obtain ⟨h1, h2⟩ := Prod.mk.injEq .. ▸ hpair
        have ho2 : removeFirstById mid xs = some (m, r.2) := by rw [ho, ← h1]
        obtain ⟨l₁, l₂, e1, e2, e3, e4⟩ := ih ho2
        refine ⟨x :: l₁, l₂, by rw [List.cons_append, ← e1], ?_, e3, ?_⟩
        · rw [← h2, e2, List.cons_append]
        · intro b hb
          rcases List.mem_cons.mp hb with hb | hb
          · rw [hb]; exact hx
          · exact e4 b hb

/-- Removing a message of one session keeps every other session count. -/
theorem length_filter_removeFirstById {mid : String}
    {l rest : List ConversationMessage} {m : ConversationMessage} {sid : String}
    (h : removeFirstById mid l = some (m, rest)) (hs : ¬ m.sessionId = sid) :
    (rest.filter (fun x => decide (x.sessionId = sid))).length =
      (l.filter (fun x => decide (x.sessionId = sid))).length := by
  obtain ⟨l₁, l₂, e1, e2, _, _⟩ := removeFirstById_decomp h
  rw [e1, e2, List.filter_append, List.filter_append, List.filter_cons]
  simp [hs]

/-- Core bookkeeping of the session recount: if the updates carry the exact
count of the target session over `newMsgs` and every other session already
counts `newMsgs` correctly, then after `updateSessionInternal` every session
counts `newMsgs` correctly. -/
theorem inv_updateSessionInternal {st : LocalState} {now : Nat} {target : String}
    {u : SessionUpdates} {newMsgs : List ConversationMessage}
    (hnd : (st.sessions.map (fun s => s.id)).Nodup)
    (huid : u.id = none)
    (hucount : u.messageCount =
      some ((newMsgs.filter (fun m => decide (m.sessionId = target))).length))
    (hkeep : ∀ s ∈ st.sessions, s.id ≠ target →
      s.messageCount = (newMsgs.filter (fun m => decide (m.sessionId = s.id))).length) :
    ∀ s ∈ (LocalStorage.updateSessionInternal now target u st).sessions,
      s.messageCount = (newMsgs.filter (fun m => decide (m.sessionId = s.id))).length := by
  unfold LocalStorage.updateSessionInternal
  by_cases hany : st.sessions.any (fun s => decide (s.id = target)) = true
  · rw [if_pos hany]
    intro s hs
    refine forall_mem_updateFirst hnd hkeep ?_ s hs
    intro x hx he
    show (applyUpdates x u).messageCount =
      (newMsgs.filter (fun m =>
        decide (m.sessionId = (applyUpdates x u).id))).length
    have hid : (applyUpdates x u).id = x.id := by
      simp [applyUpdates, huid]
    rw [hid, he]
    simp [applyUpdates, hucount]
  · rw [if_neg hany]
    intro s hs
    rcases List.mem_append.mp hs with hmem | hmem
    · refine hkeep s hmem ?_
      intro he
      exact absurd (List.any_eq_true.mpr ⟨s, hmem, by simp [he]⟩) hany
    · have hone : s = applyUpdates
          { id := target, createdAt := now, updatedAt := now, messageCount := 1 } u := by
        simpa using hmem
      have hid : s.id = target := by rw [hone]; simp [applyUpdates, huid]
      rw [hid, hone]
      simp [applyUpdates, hucount]

/-- With no limit and no offset the pagination is the identity. -/
theorem paginate_messages_of_none {o : MemoryQueryOptions} (h1 : o.limit = none)
    (h2 : o.offset = none) (l : List ConversationMessage) :
    (paginate o l).messages = l := by
  simp [paginate, h1, h2]

theorem filterBySession_eq_filter {o : MemoryQueryOptions}
    (h : o.sessionId ≠ some "") (msgs : List ConversationMessage) :
    filterBySession o msgs = msgs.filter (fun m =>
      match o.sessionId with | some s => decide (m.sessionId = s) | none => true) := by
  rcases ho : o.sessionId with _ | s
  · simp [filterBySession, sessionIdTruthy, ho]
  · have hs : ¬ s = "" := fun he => h (by rw [ho, he])
    simp [filterBySession, sessionIdTruthy, ho, hs]

theorem filterByRole_eq_filter (o : MemoryQueryOptions) (msgs : List ConversationMessage) :
    filterByRole o msgs = msgs.filter (fun m =>
      match o.role with | some r => decide (m.role = r) | none => true) := by
  rcases ho : o.role with _ | r <;> simp [filterByRole, ho]

theorem filterByStartDate_eq_filter (o : MemoryQueryOptions) (msgs : List ConversationMessage) :
    filterByStartDate o msgs = msgs.filter (fun m =>
      match o.startDate with | some d => decide (d ≤ m.timestamp) | none => true) := by
  rcases ho : o.startDate with _ | d <;> simp [filterByStartDate, ho]

theorem filterByEndDate_eq_filter (o : MemoryQueryOptions) (msgs : List ConversationMessage) :
    filterByEndDate o msgs = msgs.filter (fun m =>
      match o.endDate with | some d => decide (m.timestamp ≤ d) | none => true) := by
  rcases ho : o.endDate with _ | d <;> simp [filterByEndDate, ho]

theorem filter_filter_and (p q : ConversationMessage → Bool)
    (l : List ConversationMessage) :
    (l.filter p).filter q = l.filter (fun a => p a && q a) := by
  induction l with
  | nil => rfl
  | cons x xs ih =>
    rw [List.filter_cons]
    cases hp : p x <;> cases hq : q x <;> simp [List.filter_cons, hp, hq, ih]

/-- The four-stage filter chain of the source equals one filter by the
conjunction of the supplied filters, provided a supplied session id is not
the empty string. -/
theorem filters_eq_claimMatches {o : MemoryQueryOptions} (h : o.sessionId ≠ some "")
    (msgs : List ConversationMessage) :
    filterByEndDate o (filterByStartDate o (filterByRole o (filterBySession o msgs))) =
      msgs.filter (claimMatches o) := by
  rw [filterBySession_eq_filter h, filterByRole_eq_filter, filterByStartDate_eq_filter,
    filterByEndDate_eq_filter, filter_filter_and, filter_filter_and, filter_filter_and]
  refine List.filter_congr ?_
  intro m _
  cases h1 : o.sessionId <;> cases h2 : o.role <;> cases h3 : o.startDate <;>
    cases h4 : o.endDate <;> simp [claimMatches, h1, h2, h3, h4, Bool.and_assoc]

/-- Surviving the cascade of keyed deletes means surviving every key. -/
theorem mem_foldl_deleteItem {sid : String} {msgs : List ConversationMessage}
    {tbl : List DynamoItem} {it : DynamoItem}
    (h : it ∈ msgs.foldl
      (fun t m => deleteItem (DKey.message m.id) (DKey.session sid) t) tbl) :
    it ∈ tbl ∧ ∀ m ∈ msgs, ¬(it.PK = DKey.message m.id ∧ it.SK = DKey.session sid) := by
  induction msgs generalizing tbl with
  | nil => exact ⟨h, by simp⟩
  | cons m ms ih =>
    rw [List.foldl_cons] at h
    obtain ⟨h1, h2⟩ := ih h
    have h3 := List.mem_filter.mp h1
    refine ⟨h3.1, ?_⟩
    intro x hx
    rcases List.mem_cons.mp hx with he | hmem
    · rw [he]; exact fun hc => absurd h3.2 (by simp [hc.1, hc.2])
    · exact h2 x hmem

/-- A message row keyed under the queried session shows up in the query
result of `getMessages`. -/
theorem mem_getMessagesPureD_of_key {sid : String} {tbl : List DynamoItem}
    {it : DynamoItem} (hmem : it ∈ tbl) (hSK : it.SK = DKey.session sid)
    (hPK : isMessageKey it.PK = true) :
    toMessage it ∈
      (DynamoDBStorage.getMessagesPureD { sessionId := some sid } tbl).messages := by
  unfold DynamoDBStorage.getMessagesPureD
  rw [paginate_messages_of_none rfl rfl]
  simp only [filterByRole, filterByStartDate, filterByEndDate]
  rw [sortByTimestamp, List.mem_insertionSort]
  by_cases hs0 : sid = ""
  · have : sessionIdTruthy { sessionId := some sid : MemoryQueryOptions } = false := by
      simp [sessionIdTruthy, hs0]
    rw [if_neg (by simp [this])]
    exact List.mem_map_of_mem _ (List.mem_filter.mpr ⟨hmem, hPK⟩)
  · have : sessionIdTruthy { sessionId := some sid : MemoryQueryOptions } = true := by
      simp [sessionIdTruthy, hs0]
    rw [if_pos this]
    refine List.mem_map_of_mem _ (List.mem_reverse.mpr ?_)
    exact List.mem_filter.mpr ⟨hmem, by simp [hSK, hPK]⟩

/-! Claims. -/

/-- Claim C1: the spec states a save/lookup round-trip for all three
backends, and the file and object backends satisfy it, but the wide-column
code contradicts that intent: `saveMessage` stores the row under the key
pair (MESSAGE-id, SESSION-sessionId) while `getMessage` reads the key pair
(MESSAGE-id, MESSAGE-id), so the lookup misses every saved message.  Below,
saving a message into an existing session succeeds, yet the point lookup by
its id returns the not-found sentinel instead of the message. -/
theorem C1_dynamo_roundtrip_fails :
    (DynamoDBStorage.saveMessage 7 "gen" msgS dstSess).1 = Except.ok () ∧
    (DynamoDBStorage.getMessage "m1"
      (DynamoDBStorage.saveMessage 7 "gen" msgS dstSess).2).1 = Except.ok none :=
  ⟨rfl, rfl⟩

/-- Claim C9: on an initialized store with zero sessions, `getStats` reports
an average of zero rather than a division error, and on a fully empty store
it reports zero totals with null oldest and newest timestamps. -/
theorem C9_stats_empty (st : LocalState) (h1 : st.ready = true)
    (h2 : st.sessions = []) :
    (LocalStorage.getStats st).1 = .ok (LocalStorage.getStatsPure st) ∧
    (LocalStorage.getStatsPure st).averageMessagesPerSession = 0 ∧
    (st.messages = [] → LocalStorage.getStatsPure st =
      { totalSessions := 0, totalMessages := 0, oldestMessage := none,
        newestMessage := none, averageMessagesPerSession := 0 }) := by
  refine ⟨by simp [LocalStorage.getStats, h1], ?_, ?_⟩
  · simp [LocalStorage.getStatsPure, h2]
  · intro h3
    simp [LocalStorage.getStatsPure, h2, h3]

theorem C9_witness :
    (LocalStorage.getStats stEmpty).1 = .ok (LocalStorage.getStatsPure stEmpty) ∧
    (LocalStorage.getStatsPure stEmpty).averageMessagesPerSession = 0 ∧
    (stEmpty.messages = [] → LocalStorage.getStatsPure stEmpty =
      { totalSessions := 0, totalMessages := 0, oldestMessage := none,
        newestMessage := none, averageMessagesPerSession := 0 }) :=
  C9_stats_empty stEmpty rfl rfl

/-- Claim C10: the read-only operations of the initialized file backend and
of the object backend (an alias of the same logic) return the store state
unchanged. -/
theorem C10_reads_pure (st : LocalState) (o : MemoryQueryOptions)
    (mid sid : String) (h : st.ready = true) :
    (LocalStorage.getMessages o st).2 = st ∧ (LocalStorage.getMessage mid st).2 = st ∧
    (LocalStorage.getSession sid st).2 = st ∧ (LocalStorage.getSessions st).2 = st ∧
    (LocalStorage.getStats st).2 = st ∧
    (S3Storage.getMessages o st).2 = st ∧ (S3Storage.getMessage mid st).2 = st ∧
    (S3Storage.getSession sid st).2 = st ∧ (S3Storage.getSessions st).2 = st ∧
    (S3Storage.getStats st).2 = st := by
  simp [LocalStorage.getMessages, LocalStorage.getMessage, LocalStorage.getSession,
    LocalStorage.getSessions, LocalStorage.getStats, S3Storage.getMessages,
    S3Storage.getMessage, S3Storage.getSession, S3Storage.getSessions,
    S3Storage.getStats, h]

theorem C10_witness :
    (LocalStorage.getMessages {} stFull).2 = stFull ∧
    (LocalStorage.getMessage "m1" stFull).2 = stFull ∧
    (LocalStorage.getSession "a" stFull).2 = stFull ∧
    (LocalStorage.getSessions stFull).2 = stFull ∧
    (LocalStorage.getStats stFull).2 = stFull ∧
    (S3Storage.getMessages {} stFull).2 = stFull ∧
    (S3Storage.getMessage "m1" stFull).2 = stFull ∧
    (S3Storage.getSession "a" stFull).2 = stFull ∧
    (S3Storage.getSessions stFull).2 = stFull ∧
    (S3Storage.getStats stFull).2 = stFull :=
  C10_reads_pure stFull {} "m1" "a" rfl

/-- Claim C6 counterexample: `saveMessages` on an empty list, invoked on an
uninitialized store, succeeds as a no-op instead of failing with the
not-initialized error, because the loop body that performs the readiness
check is never entered. -/
theorem C6_counterexample :
    stUninit.ready = false ∧
    LocalStorage.saveMessages 1 "g" [] stUninit = (Except.ok (), stUninit) :=
  ⟨rfl, rfl⟩

/-- Claim C6 (amended): every backend operation other than initialization,
`isReady`, and `saveMessages` on an empty list fails with the
not-initialized error and leaves the store unchanged when invoked before
initialization, in all three backends; `saveMessages` on an empty list
instead succeeds as a no-op. -/
theorem C6_not_ready (st : LocalState) (dst : DynamoState)
    (now : Nat) (fid mid sid : String) (msg : ConversationMessage)
    (rest : List ConversationMessage) (o : MemoryQueryOptions) (u : SessionUpdates)
    (hL : st.ready = false) (hD : dst.ready = false) :
    LocalStorage.saveMessage now fid msg st = (.error storageNotReady, st) ∧
    LocalStorage.saveMessages now fid (msg :: rest) st = (.error storageNotReady, st) ∧
    LocalStorage.getMessages o st = (.error storageNotReady, st) ∧
    LocalStorage.getMessage mid st = (.error storageNotReady, st) ∧
    LocalStorage.getSessions st = (.error storageNotReady, st) ∧
    LocalStorage.getSession sid st = (.error storageNotReady, st) ∧
    LocalStorage.updateSession now sid u st = (.error storageNotReady, st) ∧
    LocalStorage.deleteMessage now mid st = (.error storageNotReady, st) ∧
    LocalStorage.deleteSession now sid st = (.error storageNotReady, st) ∧
    LocalStorage.getStats st = (.error storageNotReady, st) ∧
    LocalStorage.clear now st = (.error storageNotReady, st) ∧
    S3Storage.saveMessage now fid msg st = (.error storageNotReady, st) ∧
    S3Storage.saveMessages now fid (msg :: rest) st = (.error storageNotReady, st) ∧
    S3Storage.updateSession now sid u st = (.error storageNotReady, st) ∧
    S3Storage.deleteSession now sid st = (.error storageNotReady, st) ∧
    S3Storage.clear now st = (.error storageNotReady, st) ∧
    DynamoDBStorage.saveMessage now fid msg dst = (.error storageNotReady, dst) ∧
    DynamoDBStorage.saveMessages now fid (msg :: rest) dst = (.error storageNotReady, dst) ∧
    DynamoDBStorage.getMessages o dst = (.error storageNotReady, dst) ∧
    DynamoDBStorage.getMessage mid dst = (.error storageNotReady, dst) ∧
    DynamoDBStorage.getSessions dst = (.error storageNotReady, dst) ∧
    DynamoDBStorage.getSession sid dst = (.error storageNotReady, dst) ∧
    DynamoDBStorage.updateSession now sid u dst = (.error storageNotReady, dst) ∧
    DynamoDBStorage.deleteMessage now mid dst = (.error storageNotReady, dst) ∧
    DynamoDBStorage.deleteSession sid dst = (.error storageNotReady, dst) ∧
    DynamoDBStorage.getStats dst = (.error storageNotReady, dst) ∧
    DynamoDBStorage.clear dst = (.error storageNotReady, dst) ∧
    LocalStorage.saveMessages now fid [] st = (.ok (), st) ∧
    S3Storage.saveMessages now fid [] st = (.ok (), st) ∧
    DynamoDBStorage.saveMessages now fid [] dst = (.ok (), dst) := by
  simp [LocalStorage.saveMessage, LocalStorage.saveMessages, LocalStorage.getMessages,
    LocalStorage.getMessage, LocalStorage.getSessions, LocalStorage.getSession,
    LocalStorage.updateSession, LocalStorage.deleteMessage, LocalStorage.deleteSession,
    LocalStorage.getStats, LocalStorage.clear, S3Storage.saveMessage,
    S3Storage.saveMessages, S3Storage.updateSession, S3Storage.deleteSession,
    S3Storage.clear, DynamoDBStorage.saveMessage, DynamoDBStorage.saveMessages,
    DynamoDBStorage.getMessages, DynamoDBStorage.getMessage, DynamoDBStorage.getSessions,
    DynamoDBStorage.getSession, DynamoDBStorage.updateSession,
    DynamoDBStorage.deleteMessage, DynamoDBStorage.deleteSession,
    DynamoDBStorage.getStats, DynamoDBStorage.clear, hL, hD]

theorem C6_witness :
    LocalStorage.saveMessage 1 "g" msgA stUninit = (.error storageNotReady, stUninit) ∧
    LocalStorage.saveMessages 1 "g" [msgA] stUninit = (.error storageNotReady, stUninit) ∧
    DynamoDBStorage.getStats dstUninit = (.error storageNotReady, dstUninit) ∧
    DynamoDBStorage.saveMessages 1 "g" [] dstUninit = (.ok (), dstUninit) := by
  have h := C6_not_ready stUninit dstUninit 1 "g" "m1" "a" msgA [] {} {} rfl rfl
  exact ⟨h.1, h.2.1, h.2.2.2.2.2.2.2.2.2.2.2.2.2.2.2.2.2.2.2.2.2.2.2.2.2.1,
    h.2.2.2.2.2.2.2.2.2.2.2.2.2.2.2.2.2.2.2.2.2.2.2.2.2.2.2.2.2⟩

/-- Claim C7: on an initialized store, `updateSession` with an id bound to
no session record creates the record (with that id, given that the partial
update does not itself override the id field) in the file and object
backends, and fails with the explicit session-not-found error, leaving the
store unchanged, in the wide-column backend. -/
theorem C7_update_absent (st : LocalState) (dst : DynamoState) (now : Nat)
    (sid : String) (u : SessionUpdates)
    (hL : st.ready = true) (habs : ∀ s ∈ st.sessions, s.id ≠ sid)
    (huid : u.id = none) (hD : dst.ready = true)
    (habsD : getItem (DKey.session sid) (DKey.session sid) dst.table = none) :
    (LocalStorage.updateSession now sid u st).1 = .ok () ∧
    (∃ s ∈ (LocalStorage.updateSession now sid u st).2.sessions, s.id = sid) ∧
    (S3Storage.updateSession now sid u st).1 = .ok () ∧
    (∃ s ∈ (S3Storage.updateSession now sid u st).2.sessions, s.id = sid) ∧
    DynamoDBStorage.updateSession now sid u dst =
      (.error ("Session " ++ sid ++ " not found"), dst) := by
  have hany : ¬ (st.sessions.any (fun s => decide (s.id = sid)) = true) := by
    intro hc
    obtain ⟨x, hx, hpx⟩ := List.any_eq_true.mp hc
    exact habs x hx (of_decide_eq_true hpx)
  have hcreated : ∃ s ∈ (LocalStorage.updateSession now sid u st).2.sessions,
      s.id = sid := by
    refine ⟨applyUpdates
      { id := sid, createdAt := now, updatedAt := now, messageCount := 1 } u, ?_, ?_⟩
    · simp [LocalStorage.updateSession, hL, LocalStorage.updateSessionInternal, hany]
    · simp [applyUpdates, huid]
  refine ⟨by simp [LocalStorage.updateSession, hL], hcreated,
    by simp [S3Storage.updateSession, LocalStorage.updateSession, hL], hcreated,
    by simp [DynamoDBStorage.updateSession, hD, habsD]⟩

theorem C7_witness :
    (LocalStorage.updateSession 3 "s" { title := some (some "t") } stEmpty).1 = .ok () ∧
    (∃ s ∈ (LocalStorage.updateSession 3 "s" { title := some (some "t") } stEmpty).2.sessions,
      s.id = "s") ∧
    (S3Storage.updateSession 3 "s" { title := some (some "t") } stEmpty).1 = .ok () ∧
    (∃ s ∈ (S3Storage.updateSession 3 "s" { title := some (some "t") } stEmpty).2.sessions,
      s.id = "s") ∧
    DynamoDBStorage.updateSession 3 "s" { title := some (some "t") } dstEmpty =
      (.error ("Session " ++ "s" ++ " not found"), dstEmpty) :=
  C7_update_absent stEmpty dstEmpty 3 "s" { title := some (some "t") }
    rfl (by simp [stEmpty]) rfl rfl rfl

/-- Claim C3 counterexample: on a store with one message, a query supplying
`limit: 0` (with offset omitted, hence 0) returns one message rather than
the claimed `min(0, total-0) = 0`, and sets `hasMore` to false rather than
the claimed `0 + 0 < 1 = true`, because the JS default `options.limit ||
total` treats the supplied 0 as absent. -/
theorem C3_counterexample :
    (getMessagesPure { limit := some 0 } stOne.messages).messages.length ≠
      min 0 ((getMessagesPure { limit := some 0 } stOne.messages).total - 0) ∧
    (getMessagesPure { limit := some 0 } stOne.messages).hasMore ≠
      decide (0 + 0 < (getMessagesPure { limit := some 0 } stOne.messages).total) := by
  decide

/-- Claim C3 (amended): on an initialized store, for a supplied limit
`L ≥ 1` the query returns exactly `min(L, total - O)` messages and sets
`hasMore` to `O + L < total`; a supplied limit of 0 is treated like an
omitted limit, which defaults to the total matching count, returning every
match from the offset onward with `hasMore` false. -/
theorem C3_pagination (st : LocalState) (o : MemoryQueryOptions)
    (h : st.ready = true) :
    (LocalStorage.getMessages o st).1 = .ok (getMessagesPure o st.messages) ∧
    (∀ L, o.limit = some L → 1 ≤ L →
      (getMessagesPure o st.messages).messages.length =
        min L ((getMessagesPure o st.messages).total - o.offset.getD 0) ∧
      (getMessagesPure o st.messages).hasMore =
        decide (o.offset.getD 0 + L < (getMessagesPure o st.messages).total)) ∧
    (o.limit = none →
      (getMessagesPure o st.messages).messages.length =
        (getMessagesPure o st.messages).total - o.offset.getD 0 ∧
      (getMessagesPure o st.messages).hasMore = false) := by
  refine ⟨by simp [LocalStorage.getMessages, h], ?_, ?_⟩
  · intro L hL h1L
    have hz : ¬ L = 0 := Nat.one_le_iff_ne_zero.mp h1L
    constructor
    · simp [getMessagesPure, paginate, hL, hz, List.length_take, List.length_drop]
    · simp [getMessagesPure, paginate, hL, hz]
  · intro hnone
    constructor
    · simp [getMessagesPure, paginate, hnone, List.length_take, List.length_drop,
        Nat.min_eq_right (Nat.sub_le _ _)]
    · simp [getMessagesPure, paginate, hnone]

theorem C3_witness :
    (LocalStorage.getMessages { limit := some 2, offset := some 1 } stFull).1 =
      .ok (getMessagesPure { limit := some 2, offset := some 1 } stFull.messages) ∧
    (getMessagesPure { limit := some 2, offset := some 1 } stFull.messages).messages.length =
      min 2 ((getMessagesPure { limit := some 2, offset := some 1 } stFull.messages).total - 1) ∧
    (getMessagesPure { limit := some 2, offset := some 1 } stFull.messages).hasMore =
      decide (1 + 2 <
        (getMessagesPure { limit := some 2, offset := some 1 } stFull.messages).total) :=
  ⟨(C3_pagination stFull { limit := some 2, offset := some 1 } rfl).1,
   ((C3_pagination stFull { limit := some 2, offset := some 1 } rfl).2.1 2 rfl (by decide)).1,
   ((C3_pagination stFull { limit := some 2, offset := some 1 } rfl).2.1 2 rfl (by decide)).2⟩

/-- Claim C4 counterexample: the store holds one message with session id
`a`; the query supplying the session filter value `""` returns that message
even though it does not satisfy the supplied filter (no message has session
id `""`), because the JS truthiness test skips an empty-string filter. -/
theorem C4_counterexample :
    (getMessagesPure { sessionId := some "" } stOne.messages).messages = [msgA] ∧
    stOne.messages.filter (claimMatches { sessionId := some "" }) = [] :=
  ⟨rfl, rfl⟩

/-- Claim C4 (amended): on an initialized store, for every combination of
filters in which a supplied session id is not the empty string (an
empty-string filter is ignored by the code), `getMessages` without
pagination options returns exactly the stored messages satisfying the
conjunction of the supplied filters, sorted ascending by timestamp. -/
theorem C4_filters (st : LocalState) (o : MemoryQueryOptions) (h1 : st.ready = true)
    (h2 : o.sessionId ≠ some "") (h3 : o.limit = none) (h4 : o.offset = none) :
    (LocalStorage.getMessages o st).1 = .ok (getMessagesPure o st.messages) ∧
    (getMessagesPure o st.messages).messages.Perm
      (st.messages.filter (claimMatches o)) ∧
    List.Pairwise tsLe (getMessagesPure o st.messages).messages := by
  refine ⟨by simp [LocalStorage.getMessages, h1], ?_, ?_⟩
  · rw [getMessagesPure, paginate_messages_of_none h3 h4, sortByTimestamp,
      filters_eq_claimMatches h2]
    exact List.perm_insertionSort tsLe _
  · rw [getMessagesPure, paginate_messages_of_none h3 h4, sortByTimestamp]
    exact List.sorted_insertionSort tsLe _

theorem C4_witness :
    (LocalStorage.getMessages { sessionId := some "a" } stFull).1 =
      .ok (getMessagesPure { sessionId := some "a" } stFull.messages) ∧
    (getMessagesPure { sessionId := some "a" } stFull.messages).messages.Perm
      (stFull.messages.filter (claimMatches { sessionId := some "a" })) ∧
    List.Pairwise tsLe (getMessagesPure { sessionId := some "a" } stFull.messages).messages :=
  C4_filters stFull { sessionId := some "a" } rfl (by decide) rfl rfl

/-- Claim C2 counterexample: on an initialized empty store, `updateSession`
on an absent id with a title-only update creates a session record whose
`messageCount` is the creation default 1, while zero stored messages carry
that session id, violating the invariant. -/
theorem C2_counterexample :
    ¬ MessageCountInv
      (LocalStorage.updateSession 3 "s" { title := some (some "x") } stEmpty).2 := by
  decide

/-- Claim C2 (amended): the message-count invariant is preserved by
`saveMessage` (provided the saved id is not reused by a message of a
different session) and by `deleteMessage`, for stores whose session ids are
distinct; but `updateSession` is excluded: creating a previously absent
session stores the supplied `messageCount` or the default 1, regardless of
the stored messages. -/
theorem C2_count_invariant (st : LocalState) (now : Nat) (fid mid : String)
    (msg : ConversationMessage)
    (hready : st.ready = true)
    (hnd : (st.sessions.map (fun s => s.id)).Nodup)
    (hinv : MessageCountInv st)
    (hid : msg.id ≠ "")
    (hcoh : ∀ m ∈ st.messages, m.id = msg.id → m.sessionId = msg.sessionId) :
    MessageCountInv (LocalStorage.saveMessage now fid msg st).2 ∧
    MessageCountInv (LocalStorage.deleteMessage now mid st).2 ∧
    (∀ sid u, u.id = none → (∀ s ∈ st.sessions, s.id ≠ sid) →
      ∃ s ∈ (LocalStorage.updateSession now sid u st).2.sessions,
        s.id = sid ∧ s.messageCount = u.messageCount.getD 1) := by
  refine ⟨?_, ?_, ?_⟩
  · have hs2 : (LocalStorage.saveMessage now fid msg st).2 =
        { LocalStorage.updateSessionInternal now msg.sessionId
            { updatedAt := some now,
              messageCount := some ((upsertMessage msg st.messages).filter
                (fun m => decide (m.sessionId = msg.sessionId))).length }
            { st with messages := upsertMessage msg st.messages }
          with lastUpdated := now } := by
      simp [LocalStorage.saveMessage, hready, hid]
    intro s hs
    rw [hs2] at hs ⊢
    dsimp only at hs ⊢
    rw [updateSessionInternal_messages]
    refine @inv_updateSessionInternal { st with messages := upsertMessage msg st.messages }
      now msg.sessionId _ (upsertMessage msg st.messages) hnd rfl rfl ?_ s hs
    intro x hx hne
    rw [hinv x hx, length_filter_upsert_ne hcoh (fun he => hne he.symm)]
  · rcases hrm : removeFirstById mid st.messages with _ | p
    · have hsame : (LocalStorage.deleteMessage now mid st).2 = st := by
        simp [LocalStorage.deleteMessage, hready, hrm]
      rw [hsame]; exact hinv
    · rcases p with ⟨m, rest⟩
      have hs2 : (LocalStorage.deleteMessage now mid st).2 =
          { LocalStorage.updateSessionInternal now m.sessionId
              { messageCount := some (rest.filter
                  (fun x => decide (x.sessionId = m.sessionId))).length }
              { st with messages := rest }
            with lastUpdated := now } := by
        simp [LocalStorage.deleteMessage, hready, hrm]
      intro s hs
      rw [hs2] at hs ⊢
      dsimp only at hs ⊢
      rw [updateSessionInternal_messages]
      refine @inv_updateSessionInternal { st with messages := rest }
        now m.sessionId _ rest hnd rfl rfl ?_ s hs
      intro x hx hne
      rw [hinv x hx, length_filter_removeFirstById hrm (fun he => hne he.symm)]
  · intro sid u huid habs
    have hany : ¬ (st.sessions.any (fun s => decide (s.id = sid)) = true) := by
      intro hc
      obtain ⟨x, hx, hpx⟩ := List.any_eq_true.mp hc
      exact habs x hx (of_decide_eq_true hpx)
    refine ⟨applyUpdates
      { id := sid, createdAt := now, updatedAt := now, messageCount := 1 } u, ?_, ?_, ?_⟩
    · simp [LocalStorage.updateSession, hready, LocalStorage.updateSessionInternal, hany]
    · simp [applyUpdates, huid]
    · simp [applyUpdates]

theorem C2_witness :
    MessageCountInv (LocalStorage.saveMessage 9 "g" msgNew stFull).2 ∧
    MessageCountInv (LocalStorage.deleteMessage 9 "m1" stFull).2 ∧
    (∀ sid u, u.id = none → (∀ s ∈ stFull.sessions, s.id ≠ sid) →
      ∃ s ∈ (LocalStorage.updateSession 9 sid u stFull).2.sessions,
        s.id = sid ∧ s.messageCount = u.messageCount.getD 1) :=
  C2_count_invariant stFull 9 "g" "m1" msgNew rfl (by decide) (by decide)
    (by decide) (by decide)

/-- Claim C5: after `deleteSession(s)` the store holds no message of session
`s` and no session record `s`, whether or not `s` existed: unconditionally
in the file backend (the object backend aliases the same definition), and in
the wide-column backend for tables whose rows are keyed the way the writers
key them. -/
theorem C5_delete_cascade (st : LocalState) (dst : DynamoState) (now : Nat)
    (sid : String) (hL : st.ready = true) (hD : dst.ready = true)
    (hwf : DynamoWF dst.table) :
    (∀ m ∈ (LocalStorage.deleteSession now sid st).2.messages, m.sessionId ≠ sid) ∧
    (∀ s ∈ (LocalStorage.deleteSession now sid st).2.sessions, s.id ≠ sid) ∧
    (∀ it ∈ (DynamoDBStorage.deleteSession sid dst).2.table,
      (it.itemType = "message" → it.sessionId ≠ some sid) ∧
      (it.itemType = "session" → it.id ≠ sid)) := by
  refine ⟨?_, ?_, ?_⟩
  · intro m hm
    have h2 : m ∈ st.messages ∧ ¬ m.sessionId = sid := by
      simpa [LocalStorage.deleteSession, hL] using hm
    exact h2.2
  · intro s hs
    have h2 : s ∈ st.sessions ∧ ¬ s.id = sid := by
      simpa [LocalStorage.deleteSession, hL] using hs
    exact h2.2
  · intro it hit
    have hstate : (DynamoDBStorage.deleteSession sid dst).2.table =
        deleteItem (DKey.session sid) (DKey.session sid)
          ((DynamoDBStorage.getMessagesPureD { sessionId := some sid } dst.table).messages.foldl
            (fun t m => deleteItem (DKey.message m.id) (DKey.session sid) t) dst.table) := by
      simp [DynamoDBStorage.deleteSession, hD]
    rw [hstate] at hit
    have hfin := List.mem_filter.mp hit
    have hkey : ¬ (it.PK = DKey.session sid ∧ it.SK = DKey.session sid) := by
      intro hc
      exact absurd hfin.2 (by simp [hc.1, hc.2])
    obtain ⟨hmem, hdel⟩ := mem_foldl_deleteItem hfin.1
    constructor
    · intro htype hsid
      rcases hwf it hmem with ⟨_, hPK, hSK, _⟩ | ⟨ht2, _, _⟩
      · rw [hsid] at hSK
        refine hdel (toMessage it) ?_ ⟨hPK, by simpa using hSK⟩
        exact mem_getMessagesPureD_of_key hmem (by simpa using hSK) (by rw [hPK]; rfl)
      · rw [htype] at ht2
        exact absurd ht2 (by decide)
    · intro htype hid
      rcases hwf it hmem with ⟨ht1, _, _, _⟩ | ⟨_, hPK, hSK⟩
      · rw [htype] at ht1
        exact absurd ht1 (by decide)
      · rw [hid] at hPK hSK
        exact hkey ⟨hPK, hSK⟩

theorem C5_witness :
    (∀ m ∈ (LocalStorage.deleteSession 9 "a" stFull).2.messages, m.sessionId ≠ "a") ∧
    (∀ s ∈ (LocalStorage.deleteSession 9 "a" stFull).2.sessions, s.id ≠ "a") ∧
    (∀ it ∈ (DynamoDBStorage.deleteSession "s" dstFull).2.table,
      (it.itemType = "message" → it.sessionId ≠ some "s") ∧
      (it.itemType = "session" → it.id ≠ "s")) :=
  ⟨(C5_delete_cascade stFull dstFull 9 "a" rfl rfl (by decide)).1,
   (C5_delete_cascade stFull dstFull 9 "a" rfl rfl (by decide)).2.1,
   (C5_delete_cascade stFull dstFull 9 "s" rfl rfl (by decide)).2.2⟩

/-- On a ready store, saving a message with a nonempty id succeeds, keeps the
store ready, and upserts the message. -/
theorem saveMessage_ok {st : LocalState} (h : st.ready = true) (now : Nat)
    (fid : String) (msg : ConversationMessage) (hid : msg.id ≠ "") :
    (LocalStorage.saveMessage now fid msg st).1 = .ok () ∧
    (LocalStorage.saveMessage now fid msg st).2.ready = true ∧
    (LocalStorage.saveMessage now fid msg st).2.messages =
      upsertMessage msg st.messages := by
  refine ⟨by simp [LocalStorage.saveMessage, h, hid], ?_, ?_⟩
  · simp [LocalStorage.saveMessage, h, hid, updateSessionInternal_ready]
  · simp [LocalStorage.saveMessage, h, hid, updateSessionInternal_messages]

/-- After a successful save, the point lookup by the saved id returns the
saved message. -/
theorem getMessage_after_save {st : LocalState} (h : st.ready = true) (now : Nat)
    (fid : String) (msg : ConversationMessage) (hid : msg.id ≠ "") :
    (LocalStorage.getMessage msg.id (LocalStorage.saveMessage now fid msg st).2).1 =
      .ok (some msg) := by
  obtain ⟨-, h2, h3⟩ := saveMessage_ok h now fid msg hid
  simp [LocalStorage.getMessage, h2, h3, find?_upsertMessage]

/-- Claim C8: the manager save operations fail with the no-active-session
error (leaving the state unchanged) when no current session is set, and
otherwise build a message with the respective role, the current session id,
the given timestamp and metadata, persist it through the backend, and return
the generated id, under which the message is then retrievable. -/
theorem C8_manager_saves (mm : ManagerState) (now : Nat) (freshId content : String)
    (md : Option String) :
    (mm.currentSessionId = none →
      MemoryManager.saveUserMessage now freshId content md mm =
        (.error noActiveSession, mm) ∧
      MemoryManager.saveSystemMessage now freshId content md mm =
        (.error noActiveSession, mm)) ∧
    (∀ sid, mm.currentSessionId = some sid → mm.storage.ready = true → freshId ≠ "" →
      (MemoryManager.saveUserMessage now freshId content md mm).1 = .ok freshId ∧
      (LocalStorage.getMessage freshId
          (MemoryManager.saveUserMessage now freshId content md mm).2.storage).1 =
        .ok (some { id := freshId, sessionId := sid, role := .user,
                    content := content, timestamp := now, metadata := md }) ∧
      (MemoryManager.saveSystemMessage now freshId content md mm).1 = .ok freshId ∧
      (LocalStorage.getMessage freshId
          (MemoryManager.saveSystemMessage now freshId content md mm).2.storage).1 =
        .ok (some { id := freshId, sessionId := sid, role := .system,
                    content := content, timestamp := now, metadata := md })) := by
  constructor
  · intro h
    constructor
    · simp [MemoryManager.saveUserMessage, h]
    · simp [MemoryManager.saveSystemMessage, h]
  · intro sid hs hr hf
    have hidU : ({ id := freshId, sessionId := sid, role := .user,
                   content := content, timestamp := now, metadata := md } :
        ConversationMessage).id ≠ "" := hf
    have hidS : ({ id := freshId, sessionId := sid, role := .system,
                   content := content, timestamp := now, metadata := md } :
        ConversationMessage).id ≠ "" := hf
    obtain ⟨hU1, -, -⟩ := saveMessage_ok hr now freshId _ hidU
    obtain ⟨hS1, -, -⟩ := saveMessage_ok hr now freshId _ hidS
    have hUg := getMessage_after_save hr now freshId _ hidU
    have hSg := getMessage_after_save hr now freshId _ hidS
    rcases hu : LocalStorage.saveMessage now freshId
      { id := freshId, sessionId := sid, role := .user,
          content := content, timestamp := now, metadata := md } mm.storage with ⟨ru, stu⟩
    rcases hv : LocalStorage.saveMessage now freshId
      { id := freshId, sessionId := sid, role := .system,
          content := content, timestamp := now, metadata := md } mm.storage with ⟨rv, stv⟩
    rw [hu] at hU1 hUg
    rw [hv] at hS1 hSg
    have hru : ru = .ok () := by
      cases ru with
      | ok a => cases a; rfl
      | error e => exact absurd hU1 (by simp)
    have hrv : rv = .ok () := by
      cases rv with
      | ok a => cases a; rfl
      | error e => exact absurd hS1 (by simp)
    refine ⟨?_, ?_, ?_, ?_⟩
    · simp [MemoryManager.saveUserMessage, hs, hu, hru]
    · have : (MemoryManager.saveUserMessage now freshId content md mm).2.storage = stu := by
        simp [MemoryManager.saveUserMessage, hs, hu, hru]
      rw [this]
      exact hUg
    · simp [MemoryManager.saveSystemMessage, hs, hv, hrv]
    · have : (MemoryManager.saveSystemMessage now freshId content md mm).2.storage = stv := by
        simp [MemoryManager.saveSystemMessage, hs, hv, hrv]
      rw [this]
      exact hSg

theorem C8_witness :
    MemoryManager.saveUserMessage 4 "id9" "hey" none mmIdle =
      (.error noActiveSession, mmIdle) ∧
    (MemoryManager.saveUserMessage 4 "id9" "hey" none mmActive).1 = .ok "id9" ∧
    (LocalStorage.getMessage "id9"
        (MemoryManager.saveUserMessage 4 "id9" "hey" none mmActive).2.storage).1 =
      .ok (some { id := "id9", sessionId := "s", role := .user,
                  content := "hey", timestamp := 4, metadata := none }) ∧
    (MemoryManager.saveSystemMessage 4 "id9" "hey" none mmActive).1 = .ok "id9" ∧
    (LocalStorage.getMessage "id9"
        (MemoryManager.saveSystemMessage 4 "id9" "hey" none mmActive).2.storage).1 =
      .ok (some { id := "id9", sessionId := "s", role := .system,
                  content := "hey", timestamp := 4, metadata := none }) :=
  ⟨((C8_manager_saves mmIdle 4 "id9" "hey" none).1 rfl).1,
   ((C8_manager_saves mmActive 4 "id9" "hey" none).2 "s" rfl rfl (by decide)).1,
   ((C8_manager_saves mmActive 4 "id9" "hey" none).2 "s" rfl rfl (by decide)).2.1,
   ((C8_manager_saves mmActive 4 "id9" "hey" none).2 "s" rfl rfl (by decide)).2.2.1,
   ((C8_manager_saves mmActive 4 "id9" "hey" none).2 "s" rfl rfl (by decide)).2.2.2⟩
